import Mathlib

/-!
Verification of the NSandbox RPC/lifecycle controller
(`app/server/lib/NSandbox.ts`).

The controller talks to a sandboxed process over two pipes using framed
messages `(msgCode, payload)`.  Outgoing calls (`pyCall`) are correlated to
response frames purely by FIFO order (`_pendingReads`); inbound CALL frames
invoke exported functions; stream/process termination drains the registry
and drives shutdown.

The embedding below is a faithful state-transition model of the controller:
each TypeScript method becomes a pure function on an explicit
`SandboxState`.  Promises collapse to the recorded outcome of each pending
call (`Outcome`); exceptions become explicit `Except`/threaded error
results; writes to the outbound stream are recorded in `sentFrames`;
`log.rawWarn` calls are counted in `warnings`.  The marshalling codec is an
external collaborator: frames are modelled at the decoded level, and
chunking of the inbound byte stream is modelled as an arbitrary partition
of the decoded frame sequence.
-/

namespace NSandbox

/-- Protocol values carried in frame payloads (the marshal codec round-trips
scalars, sequences and mappings; this fragment is what the controller
inspects). -/
inductive Val where
  | vnull : Val
  | vbool : Bool → Val
  | vint : Int → Val
  | vstr : String → Val
  | varr : List Val → Val

mutual
/-- Decidable equality for `Val` (not derivable for a nested inductive). -/
def Val.decEq : (a b : Val) → Decidable (a = b)
  | .vnull, .vnull => isTrue rfl
  | .vnull, .vbool _ => isFalse (fun h => Val.noConfusion h)
  | .vnull, .vint _ => isFalse (fun h => Val.noConfusion h)
  | .vnull, .vstr _ => isFalse (fun h => Val.noConfusion h)
  | .vnull, .varr _ => isFalse (fun h => Val.noConfusion h)
  | .vbool _, .vnull => isFalse (fun h => Val.noConfusion h)
  | .vbool x, .vbool y =>
    if h : x = y then isTrue (by rw [h]) else isFalse (fun hh => h (by injection hh))
  | .vbool _, .vint _ => isFalse (fun h => Val.noConfusion h)
  | .vbool _, .vstr _ => isFalse (fun h => Val.noConfusion h)
  | .vbool _, .varr _ => isFalse (fun h => Val.noConfusion h)
  | .vint _, .vnull => isFalse (fun h => Val.noConfusion h)
  | .vint _, .vbool _ => isFalse (fun h => Val.noConfusion h)
  | .vint x, .vint y =>
    if h : x = y then isTrue (by rw [h]) else isFalse (fun hh => h (by injection hh))
  | .vint _, .vstr _ => isFalse (fun h => Val.noConfusion h)
  | .vint _, .varr _ => isFalse (fun h => Val.noConfusion h)
  | .vstr _, .vnull => isFalse (fun h => Val.noConfusion h)
  | .vstr _, .vbool _ => isFalse (fun h => Val.noConfusion h)
  | .vstr _, .vint _ => isFalse (fun h => Val.noConfusion h)
  | .vstr x, .vstr y =>
    if h : x = y then isTrue (by rw [h]) else isFalse (fun hh => h (by injection hh))
  | .vstr _, .varr _ => isFalse (fun h => Val.noConfusion h)
  | .varr _, .vnull => isFalse (fun h => Val.noConfusion h)
  | .varr _, .vbool _ => isFalse (fun h => Val.noConfusion h)
  | .varr _, .vint _ => isFalse (fun h => Val.noConfusion h)
  | .varr _, .vstr _ => isFalse (fun h => Val.noConfusion h)
  | .varr xs, .varr ys =>
    match Val.decEqList xs ys with
    | isTrue h => isTrue (by rw [h])
    | isFalse h => isFalse (fun hh => h (by injection hh))

/-- Decidable equality for lists of `Val`. -/
def Val.decEqList : (a b : List Val) → Decidable (a = b)
  | [], [] => isTrue rfl
  | [], _ :: _ => isFalse (fun h => List.noConfusion h)
  | _ :: _, [] => isFalse (fun h => List.noConfusion h)
  | x :: xs, y :: ys =>
    match Val.decEq x y with
    | isFalse h => isFalse (fun hh => h (by injection hh))
    | isTrue h1 =>
      match Val.decEqList xs ys with
      | isTrue h2 => isTrue (by rw [h1, h2])
      | isFalse h2 => isFalse (fun hh => h2 (by injection hh))
end

instance : DecidableEq Val := Val.decEq

/-- Message codes.  The declared TS type is `null | true | false`, with the
constants CALL/DATA/EXC covering those three values; `other` stands for any
out-of-type value arriving from the wire (`marshal.loads` returns `any`),
which reaches the final `else` branch of `_onSandboxMsg`. -/
inductive MsgCode where
  | CALL : MsgCode
  | DATA : MsgCode
  | EXC : MsgCode
  | other : MsgCode
deriving DecidableEq

/-- `sandboxUtil.SandboxError` carrying its message/payload. -/
structure SandboxError where
  message : Val
deriving DecidableEq

/-- The eventual state of one pending call's promise slot. -/
inductive Outcome where
  | pending : Outcome
  | success : Val → Outcome
  | failure : SandboxError → Outcome
deriving DecidableEq

/-- A host-side exported function (`SandboxMethod`); a thrown error is
modelled by `Except.error` carrying `err.toString()`. -/
def SandboxMethod : Type := List Val → Except String Val

/-- State of one `NSandbox` instance.  Pending calls are identified by their
issuance index: `outcomes[i]` is the promise slot of the `i`-th call ever
issued, and `pendingReads` is the FIFO queue of still-unanswered call ids
(`_pendingReads`).  `sentFrames` records every frame written to
`_streamToSandbox`; `streamEndCount` counts calls to
`_streamToSandbox.end()`; `warnings` counts `log.rawWarn` calls. -/
structure SandboxState where
  pendingReads : List Nat
  outcomes : List Outcome
  isReadClosed : Bool
  isWriteClosed : Bool
  throttleAttached : Bool
  throttleStopped : Bool
  sentFrames : List (MsgCode × Val)
  streamEndCount : Nat
  warnings : Nat
deriving DecidableEq

/-- The state right after the constructor ran: no pending calls, both
streams open, nothing sent.  The throttle exists iff `GRIST_THROTTLE_CPU`
was set. -/
def initialState (throttleAttached : Bool) : SandboxState :=
  { pendingReads := []
    outcomes := []
    isReadClosed := false
    isWriteClosed := false
    throttleAttached := throttleAttached
    throttleStopped := false
    sentFrames := []
    streamEndCount := 0
    warnings := 0 }

mutual
/-- JavaScript string coercion of a payload value, as used by property
lookup `this._exportedFunctions[fname]` and by `"..." + fname`. -/
def jsToString : Val → String
  | .vnull => "null"
  | .vbool true => "true"
  | .vbool false => "false"
  | .vint n => toString n
  | .vstr s => s
  | .varr xs => jsToStringList xs

/-- JS `Array.prototype.toString`: elements joined with commas. -/
def jsToStringList : List Val → String
  | [] => ""
  | [x] => jsToString x
  | x :: xs => jsToString x ++ "," ++ jsToStringList xs
end

/-- `_sendData(msgCode, data)`: throws `SandboxError("PipeToSandbox is
closed")` when `_isReadClosed`, before marshalling or writing anything;
otherwise marshals and writes the frame.  The returned state is the state
after the call, also when it throws (the check precedes every mutation). -/
def _sendData (s : SandboxState) (msgCode : MsgCode) (data : Val) :
    SandboxState × Option SandboxError :=
  if s.isReadClosed then
    (s, some ⟨.vstr "PipeToSandbox is closed"⟩)
  else
    ({ s with sentFrames := s.sentFrames ++ [(msgCode, data)] }, none)

/-- `pyCall(funcName, ...varArgs)`: sends a CALL frame with payload
`[funcName, ...varArgs]`, then (`_pyCallWait`) pushes a fresh
resolve/reject pair onto `_pendingReads`.  When `_sendData` throws, the
exception propagates before `_pyCallWait` runs, so no pending entry is
added.  Returns the new call's id on success. -/
def pyCall (s : SandboxState) (funcName : String) (varArgs : List Val) :
    SandboxState × Except SandboxError Nat :=
  match _sendData s .CALL (.varr (.vstr funcName :: varArgs)) with
  | (s1, some e) => (s1, .error e)
  | (s1, none) =>
    ({ s1 with
        pendingReads := s1.pendingReads ++ [s1.outcomes.length]
        outcomes := s1.outcomes ++ [.pending] },
      .ok s1.outcomes.length)

/-- Resolve the promise slot of call `id`. -/
def setOutcome (s : SandboxState) (id : Nat) (o : Outcome) : SandboxState :=
  { s with outcomes := s.outcomes.set id o }

/-- The `else` branch of `_onSandboxMsg`: shift the oldest pending pair (if
any); EXC rejects it with `SandboxError(data)`, DATA resolves it with
`data`, any other code logs a warning (the shifted pair is dropped
unresolved). -/
def resolveNext (s : SandboxState) (msgCode : MsgCode) (data : Val) :
    SandboxState :=
  match s.pendingReads with
  | [] => s
  | id :: rest =>
    let s1 := { s with pendingReads := rest }
    if msgCode = .EXC then setOutcome s1 id (.failure ⟨data⟩)
    else if msgCode = .DATA then setOutcome s1 id (.success data)
    else { s1 with warnings := s1.warnings + 1 }

/-- The `_sendData` calls made from the inbound-call promise chain: a throw
is caught by the final `.catch` and only logged (`log.rawDebug`), so the
frame is silently dropped when the read side is closed. -/
def trySendData (s : SandboxState) (msgCode : MsgCode) (data : Val) :
    SandboxState :=
  (_sendData s msgCode data).1

/-- The CALL branch of `_onSandboxMsg`: an invalid payload (not an array,
or empty) is logged with `log.rawWarn` and nothing else happens; otherwise
the named exported function is looked up and run, answering DATA with its
result or EXC with the thrown error's string (for a missing function,
`Error("No such exported function: " + fname).toString()`). -/
def handleSandboxCall (exports : List (String × SandboxMethod))
    (s : SandboxState) (data : Val) : SandboxState :=
  match data with
  | .varr (fnameV :: args) =>
    let fname := jsToString fnameV
    match exports.lookup fname with
    | none =>
      trySendData s .EXC (.vstr ("Error: No such exported function: " ++ fname))
    | some func =>
      match func args with
      | .ok ret => trySendData s .DATA ret
      | .error e => trySendData s .EXC (.vstr e)
  | _ => { s with warnings := s.warnings + 1 }

/-- `_onSandboxMsg(msgCode, data)`: CALL frames go to the exported-function
path, everything else resolves the oldest pending call. -/
def _onSandboxMsg (exports : List (String × SandboxMethod))
    (s : SandboxState) (msgCode : MsgCode) (data : Val) : SandboxState :=
  if msgCode = .CALL then handleSandboxCall exports s data
  else resolveNext s msgCode data

/-- `if (this._throttle) { this._throttle.stop(); }` -/
def stopThrottle (s : SandboxState) : SandboxState :=
  if s.throttleAttached then { s with throttleStopped := true } else s

/-- The channel-closed error used to drain the registry. -/
def channelClosedError : SandboxError := ⟨.vstr "PipeFromSandbox is closed"⟩

/-- Reject every listed pending call with error `e` (the
`_pendingReads.forEach` loop). -/
def drainOutcomes (outs : List Outcome) (ids : List Nat) (e : SandboxError) :
    List Outcome :=
  ids.foldl (fun acc id => acc.set id (.failure e)) outs

/-- `_onSandboxClose()`: stop the throttle, mark the read side closed,
reject all pending reads with `SandboxError("PipeFromSandbox is closed")`
and empty the queue. -/
def _onSandboxClose (s : SandboxState) : SandboxState :=
  let s1 := stopThrottle s
  let s2 := { s1 with isReadClosed := true }
  { s2 with
      outcomes := drainOutcomes s2.outcomes s2.pendingReads channelClosedError
      pendingReads := [] }

/-- `_close()`: stop the throttle and, unless already done, end the
outbound stream (exactly one `.end()` ever happens). -/
def _close (s : SandboxState) : SandboxState :=
  let s1 := stopThrottle s
  if s1.isWriteClosed then s1
  else { s1 with streamEndCount := s1.streamEndCount + 1, isWriteClosed := true }

/-- `_onExit(code, signal)`: runs `_close()` and logs. -/
def _onExit (s : SandboxState) : SandboxState := _close s

/-- The grace period of the kill timer set by `shutdown()` (milliseconds). -/
def killTimeoutMs : Nat := 1000

/-- One in-flight `shutdown()` invocation.  `timerPending`: the
`setTimeout` kill timer is armed and not yet cleared; `killSent`: the
timer fired and `childProc.kill('SIGKILL')` ran; `completed`: the awaited
promise has resolved and `clearTimeout` ran; `processExited`: the process
'close'/'exit' event has been observed.  `timerDelayMs` is the delay the
timer was armed with. -/
structure ShutdownState where
  core : SandboxState
  timerDelayMs : Nat
  timerPending : Bool
  killSent : Bool
  completed : Bool
  processExited : Bool
deriving DecidableEq

/-- External events a pending `shutdown()` reacts to. -/
inductive SdEvent where
  | timerFire : SdEvent
  | processExit : SdEvent
deriving DecidableEq

/-- The synchronous part of `shutdown()`: arm the 1000 ms kill timer, then
run the promise executor — it resolves immediately when `_isWriteClosed`
is already true, registers the 'close'/'exit' handlers, and calls
`_close()`.  When the promise resolved immediately, the continuation
(`clearTimeout`) runs in the following microtask, before any timer
callback can fire, so the timer is already cancelled in that case. -/
def shutdownStart (s : SandboxState) : ShutdownState :=
  let resolvedNow := s.isWriteClosed
  { core := _close s
    timerDelayMs := killTimeoutMs
    timerPending := !resolvedNow
    killSent := false
    completed := resolvedNow
    processExited := false }

/-- Reaction of a pending `shutdown()` to an event.  A firing timer sends
SIGKILL unconditionally.  The first process 'close'/'exit' event runs
`_onExit` on the controller, resolves the awaited promise and clears the
timer; Node emits the event once, so a repeat is a no-op. -/
def shutdownStep (st : ShutdownState) : SdEvent → ShutdownState
  | .timerFire =>
    if st.timerPending then
      { st with timerPending := false, killSent := true }
    else st
  | .processExit =>
    if st.processExited then st
    else
      { st with
          core := _onExit st.core
          processExited := true
          completed := true
          timerPending := false }

/-- The number of frames a state has written to the outbound stream. -/
def sentCount (s : SandboxState) : Nat := s.sentFrames.length

/-- Issue a sequence of calls via `pyCall`, keeping only the state (each
call's result goes to its separate caller). -/
def issueCalls (s : SandboxState) (calls : List (String × List Val)) :
    SandboxState :=
  calls.foldl (fun t c => (pyCall t c.1 c.2).1) s

/-- Consume a sequence of decoded frames through `_onSandboxMsg` (what the
unmarshaller's callback does for each complete decoded value). -/
def consumeFrames (exports : List (String × SandboxMethod))
    (s : SandboxState) (frames : List (MsgCode × Val)) : SandboxState :=
  frames.foldl (fun t f => _onSandboxMsg exports t f.1 f.2) s

/-- Consume chunk after chunk of decoded frames: an arbitrary chunking of
the inbound byte stream yields the decoded frames partitioned into some
such list of chunks (the codec is incremental and resumable). -/
def consumeChunks (exports : List (String × SandboxMethod))
    (s : SandboxState) (chunks : List (List (MsgCode × Val))) : SandboxState :=
  chunks.foldl (consumeFrames exports) s

/-- The outcome a response frame gives the pending call it is matched with:
DATA resolves, EXC rejects, any other code drops the call unresolved. -/
def frameOutcome (f : MsgCode × Val) : Outcome :=
  if f.1 = .DATA then .success f.2
  else if f.1 = .EXC then .failure ⟨f.2⟩
  else .pending

/-- A CALL payload that carries no function name:
`!Array.isArray(data) || data.length === 0`. -/
def isInvalidCallPayload : Val → Bool
  | .varr (_ :: _) => false
  | _ => true

/-- Events the controller can observe after construction (besides
`pyCall`, whose effect is threaded separately). -/
inductive Ev where
  | msg : MsgCode → Val → Ev
  | inboundClose : Ev
  | procExit : Ev
deriving DecidableEq

/-- Apply one observed event to the controller state. -/
def stepEv (exports : List (String × SandboxMethod))
    (s : SandboxState) : Ev → SandboxState
  | .msg code data => _onSandboxMsg exports s code data
  | .inboundClose => _onSandboxClose s
  | .procExit => _onExit s

/-- Apply a sequence of observed events. -/
def applyEvents (exports : List (String × SandboxMethod))
    (s : SandboxState) (evs : List Ev) : SandboxState :=
  evs.foldl (stepEv exports) s

/-- The character class kept by the DOC_URL sanitizer:
`[-a-zA-Z0-9_:/?&.]`. -/
def docUrlAllowed (c : Char) : Bool :=
  c = '-' || ('a' ≤ c && c ≤ 'z') || ('A' ≤ c && c ≤ 'Z') ||
  ('0' ≤ c && c ≤ '9') || c = '_' || c = ':' || c = '/' || c = '?' ||
  c = '&' || c = '.'

/-- `String.prototype.replace` with a non-global single-character-class
regex and an empty replacement: delete the first matching (here: first
disallowed) character and leave the rest of the string untouched. -/
def replaceFirstDisallowed : List Char → List Char
  | [] => []
  | c :: cs => if docUrlAllowed c then c :: replaceFirstDisallowed cs else cs

/-- The `DOC_URL` entry of the environment built by `NSandboxCreator.create`:
`(options.docUrl || '').replace(/[^-a-zA-Z0-9_:/?&.]/, '')`. -/
def createDocUrlEnv (docUrl : Option String) : String :=
  String.mk (replaceFirstDisallowed (docUrl.getD "").data)

/-! ## Helper lemmas -/

theorem resolveNext_nil {s : SandboxState} (code : MsgCode) (payload : Val)
    (h : s.pendingReads = []) : resolveNext s code payload = s := by
  simp [resolveNext, h]

theorem resolveNext_cons {s : SandboxState} (code : MsgCode) (payload : Val)
    {id : Nat} {rest : List Nat} (h : s.pendingReads = id :: rest) :
    resolveNext s code payload =
      if code = .EXC then
        { s with pendingReads := rest,
                 outcomes := s.outcomes.set id (.failure ⟨payload⟩) }
      else if code = .DATA then
        { s with pendingReads := rest,
                 outcomes := s.outcomes.set id (.success payload) }
      else
        { s with pendingReads := rest, warnings := s.warnings + 1 } := by
  simp only [resolveNext, h, setOutcome]

theorem stopThrottle_isReadClosed (s : SandboxState) :
    (stopThrottle s).isReadClosed = s.isReadClosed := by
  simp only [stopThrottle]; split <;> rfl

theorem stopThrottle_isWriteClosed (s : SandboxState) :
    (stopThrottle s).isWriteClosed = s.isWriteClosed := by
  simp only [stopThrottle]; split <;> rfl

theorem stopThrottle_pendingReads (s : SandboxState) :
    (stopThrottle s).pendingReads = s.pendingReads := by
  simp only [stopThrottle]; split <;> rfl

theorem stopThrottle_outcomes (s : SandboxState) :
    (stopThrottle s).outcomes = s.outcomes := by
  simp only [stopThrottle]; split <;> rfl

theorem stopThrottle_streamEndCount (s : SandboxState) :
    (stopThrottle s).streamEndCount = s.streamEndCount := by
  simp only [stopThrottle]; split <;> rfl

theorem trySendData_isReadClosed (s : SandboxState) (code : MsgCode)
    (data : Val) : (trySendData s code data).isReadClosed = s.isReadClosed := by
  unfold trySendData _sendData; split <;> rfl

theorem trySendData_pendingReads (s : SandboxState) (code : MsgCode)
    (data : Val) : (trySendData s code data).pendingReads = s.pendingReads := by
  unfold trySendData _sendData; split <;> rfl

theorem trySendData_outcomes (s : SandboxState) (code : MsgCode)
    (data : Val) : (trySendData s code data).outcomes = s.outcomes := by
  unfold trySendData _sendData; split <;> rfl

theorem handleSandboxCall_isReadClosed (exports : List (String × SandboxMethod))
    (s : SandboxState) (data : Val) :
    (handleSandboxCall exports s data).isReadClosed = s.isReadClosed := by
  unfold handleSandboxCall
  split
  · dsimp only
    split
    · exact trySendData_isReadClosed ..
    · split
      · exact trySendData_isReadClosed ..
      · exact trySendData_isReadClosed ..
  · rfl

theorem handleSandboxCall_pendingReads (exports : List (String × SandboxMethod))
    (s : SandboxState) (data : Val) :
    (handleSandboxCall exports s data).pendingReads = s.pendingReads := by
  unfold handleSandboxCall
  split
  · dsimp only
    split
    · exact trySendData_pendingReads ..
    · split
      · exact trySendData_pendingReads ..
      · exact trySendData_pendingReads ..
  · rfl

theorem handleSandboxCall_outcomes (exports : List (String × SandboxMethod))
    (s : SandboxState) (data : Val) :
    (handleSandboxCall exports s data).outcomes = s.outcomes := by
  unfold handleSandboxCall
  split
  · dsimp only
    split
    · exact trySendData_outcomes ..
    · split
      · exact trySendData_outcomes ..
      · exact trySendData_outcomes ..
  · rfl

theorem onSandboxMsg_isReadClosed (exports : List (String × SandboxMethod))
    (s : SandboxState) (code : MsgCode) (data : Val) :
    (_onSandboxMsg exports s code data).isReadClosed = s.isReadClosed := by
  unfold _onSandboxMsg
  split
  · exact handleSandboxCall_isReadClosed ..
  · unfold resolveNext
    split
    · rfl
    · split
      · rfl
      · split <;> rfl

theorem close_isReadClosed (s : SandboxState) :
    (_close s).isReadClosed = s.isReadClosed := by
  unfold _close
  dsimp only
  split
  · exact stopThrottle_isReadClosed s
  · exact stopThrottle_isReadClosed s

theorem stepEv_isReadClosed (exports : List (String × SandboxMethod))
    (s : SandboxState) (e : Ev) (h : s.isReadClosed = true) :
    (stepEv exports s e).isReadClosed = true := by
  cases e with
  | msg code data => rw [stepEv, onSandboxMsg_isReadClosed]; exact h
  | inboundClose => rfl
  | procExit => rw [stepEv, _onExit, close_isReadClosed]; exact h

theorem applyEvents_isReadClosed (exports : List (String × SandboxMethod))
    (evs : List Ev) (s : SandboxState) (h : s.isReadClosed = true) :
    (applyEvents exports s evs).isReadClosed = true := by
  induction evs generalizing s with
  | nil => exact h
  | cons e evs ih =>
    exact ih (stepEv exports s e) (stepEv_isReadClosed exports s e h)

theorem stopThrottle_throttleAttached (s : SandboxState) :
    (stopThrottle s).throttleAttached = s.throttleAttached := by
  simp only [stopThrottle]; split <;> rfl

theorem stopThrottle_throttleStopped_of_attached (s : SandboxState)
    (h : s.throttleAttached = true) :
    (stopThrottle s).throttleStopped = true := by
  unfold stopThrottle
  rw [if_pos h]

theorem close_pendingReads (s : SandboxState) :
    (_close s).pendingReads = s.pendingReads := by
  unfold _close
  dsimp only
  split
  · exact stopThrottle_pendingReads s
  · exact stopThrottle_pendingReads s

theorem close_outcomes (s : SandboxState) :
    (_close s).outcomes = s.outcomes := by
  unfold _close
  dsimp only
  split
  · exact stopThrottle_outcomes s
  · exact stopThrottle_outcomes s

theorem close_throttleAttached (s : SandboxState) :
    (_close s).throttleAttached = s.throttleAttached := by
  unfold _close
  dsimp only
  split
  · exact stopThrottle_throttleAttached s
  · exact stopThrottle_throttleAttached s

theorem close_throttleStopped_of_attached (s : SandboxState)
    (h : s.throttleAttached = true) :
    (_close s).throttleStopped = true := by
  unfold _close
  dsimp only
  split
  · exact stopThrottle_throttleStopped_of_attached s h
  · exact stopThrottle_throttleStopped_of_attached s h

theorem onSandboxClose_pendingReads (s : SandboxState) :
    (_onSandboxClose s).pendingReads = [] := rfl

theorem onSandboxClose_isReadClosed (s : SandboxState) :
    (_onSandboxClose s).isReadClosed = true := rfl

theorem onSandboxClose_outcomes (s : SandboxState) :
    (_onSandboxClose s).outcomes =
      drainOutcomes s.outcomes s.pendingReads channelClosedError := by
  show drainOutcomes (stopThrottle s).outcomes (stopThrottle s).pendingReads
      channelClosedError = _
  rw [stopThrottle_outcomes, stopThrottle_pendingReads]

theorem onSandboxClose_throttleStopped_of_attached (s : SandboxState)
    (h : s.throttleAttached = true) :
    (_onSandboxClose s).throttleStopped = true := by
  show (stopThrottle s).throttleStopped = true
  exact stopThrottle_throttleStopped_of_attached s h

theorem onSandboxClose_throttleAttached (s : SandboxState) :
    (_onSandboxClose s).throttleAttached = s.throttleAttached := by
  show (stopThrottle s).throttleAttached = s.throttleAttached
  exact stopThrottle_throttleAttached s

theorem drainOutcomes_length (ids : List Nat) :
    ∀ (outs : List Outcome) (e : SandboxError),
      (drainOutcomes outs ids e).length = outs.length := by
  induction ids with
  | nil => intro outs e; rfl
  | cons a tl ih =>
    intro outs e
    show (drainOutcomes (outs.set a (.failure e)) tl e).length = outs.length
    rw [ih, List.length_set]

theorem drainOutcomes_get_preserved (ids : List Nat) :
    ∀ (outs : List Outcome) (e : SandboxError) (id : Nat),
      outs[id]? = some (.failure e) →
      (drainOutcomes outs ids e)[id]? = some (.failure e) := by
  induction ids with
  | nil => intro outs e id hv; exact hv
  | cons a tl ih =>
    intro outs e id hv
    show (drainOutcomes (outs.set a (.failure e)) tl e)[id]? = _
    apply ih
    by_cases hae : a = id
    · subst hae
      have hlt : a < outs.length := by
        by_contra hge
        rw [List.getElem?_eq_none (Nat.le_of_not_lt hge)] at hv
        cases hv
      exact List.getElem?_set_eq_of_lt (.failure e) hlt
    · rw [List.getElem?_set_ne hae]
      exact hv

theorem drainOutcomes_get_of_mem (ids : List Nat) :
    ∀ (outs : List Outcome) (e : SandboxError) (id : Nat),
      id ∈ ids → id < outs.length →
      (drainOutcomes outs ids e)[id]? = some (.failure e) := by
  induction ids with
  | nil => intro _ _ _ hmem _; cases hmem
  | cons a tl ih =>
    intro outs e id hmem hlt
    show (drainOutcomes (outs.set a (.failure e)) tl e)[id]? = _
    rcases List.mem_cons.mp hmem with heq | hmem2
    · subst heq
      exact drainOutcomes_get_preserved tl _ e id
        (List.getElem?_set_eq_of_lt (.failure e) hlt)
    · exact ih _ e id hmem2 (by rw [List.length_set]; exact hlt)

theorem pyCall_open_pendingReads (s : SandboxState) (f : String)
    (args : List Val) (h : s.isReadClosed = false) :
    (pyCall s f args).1.pendingReads =
      s.pendingReads ++ [s.outcomes.length] := by
  simp [pyCall, _sendData, h]

theorem pyCall_open_outcomes (s : SandboxState) (f : String)
    (args : List Val) (h : s.isReadClosed = false) :
    (pyCall s f args).1.outcomes = s.outcomes ++ [.pending] := by
  simp [pyCall, _sendData, h]

theorem pyCall_open_isReadClosed (s : SandboxState) (f : String)
    (args : List Val) (h : s.isReadClosed = false) :
    (pyCall s f args).1.isReadClosed = false := by
  simp [pyCall, _sendData, h]

theorem issueCalls_spec (calls : List (String × List Val)) :
    ∀ (s : SandboxState), s.isReadClosed = false →
      (issueCalls s calls).pendingReads =
        s.pendingReads ++ List.range' s.outcomes.length calls.length ∧
      (issueCalls s calls).outcomes =
        s.outcomes ++ List.replicate calls.length .pending ∧
      (issueCalls s calls).isReadClosed = false := by
  induction calls with
  | nil =>
    intro s h
    exact ⟨by simp [issueCalls], by simp [issueCalls], h⟩
  | cons c cs ih =>
    intro s h
    have h1 := pyCall_open_pendingReads s c.1 c.2 h
    have h2 := pyCall_open_outcomes s c.1 c.2 h
    have h3 := pyCall_open_isReadClosed s c.1 c.2 h
    have hi := ih (pyCall s c.1 c.2).1 h3
    have hic : issueCalls s (c :: cs) = issueCalls (pyCall s c.1 c.2).1 cs :=
      rfl
    refine ⟨?_, ?_, by rw [hic]; exact hi.2.2⟩
    · rw [hic, hi.1, h1, h2]
      simp [List.range'_succ, List.append_assoc]
    · rw [hic, hi.2.1, h2]
      simp [List.replicate_succ, List.append_assoc]

theorem consumeChunks_eq_flatten (exports : List (String × SandboxMethod))
    (chunks : List (List (MsgCode × Val))) :
    ∀ s, consumeChunks exports s chunks =
      consumeFrames exports s chunks.flatten := by
  induction chunks with
  | nil => intro s; rfl
  | cons ch chs ih =>
    intro s
    show consumeChunks exports (consumeFrames exports s ch) chs = _
    rw [ih]
    show List.foldl _ (List.foldl _ s ch) chs.flatten =
      List.foldl _ s (ch :: chs).flatten
    rw [List.flatten_cons, List.foldl_append]

theorem consumeFrames_resolves (exports : List (String × SandboxMethod))
    (frames : List (MsgCode × Val)) :
    ∀ (s : SandboxState) (ids rest : List Nat),
      s.pendingReads = ids ++ rest →
      ids.length = frames.length →
      ids.Nodup →
      (∀ id ∈ ids, id < s.outcomes.length) →
      (∀ f ∈ frames, f.1 = MsgCode.DATA ∨ f.1 = MsgCode.EXC) →
      (consumeFrames exports s frames).pendingReads = rest ∧
      (consumeFrames exports s frames).outcomes.length = s.outcomes.length ∧
      (∀ j, j ∉ ids →
        (consumeFrames exports s frames).outcomes[j]? = s.outcomes[j]?) ∧
      (∀ i, (h1 : i < ids.length) → (h2 : i < frames.length) →
        (consumeFrames exports s frames).outcomes[ids[i]]? =
          some (frameOutcome frames[i])) := by
  induction frames with
  | nil =>
    intro s ids rest hpr hlen hnd hbound hcodes
    have hids : ids = [] := List.length_eq_zero.mp hlen
    subst hids
    refine ⟨?_, rfl, fun j _ => rfl, fun i h1 h2 => absurd h1 (Nat.not_lt_zero i)⟩
    show s.pendingReads = rest
    rw [hpr, List.nil_append]
  | cons f fs ih =>
    intro s ids rest hpr hlen hnd hbound hcodes
    cases ids with
    | nil => rw [List.length_cons] at hlen; cases hlen
    | cons id ids2 =>
      rw [List.cons_append] at hpr
      rw [List.length_cons, List.length_cons] at hlen
      have hlen2 : ids2.length = fs.length := Nat.succ.inj hlen
      have hcode := hcodes f (List.mem_cons_self f fs)
      have hfne : f.1 ≠ .CALL := by
        rcases hcode with h | h <;> rw [h] <;> intro hh <;> cases hh
      have hres : _onSandboxMsg exports s f.1 f.2 =
          { s with pendingReads := ids2 ++ rest,
                   outcomes := s.outcomes.set id (frameOutcome f) } := by
        rw [_onSandboxMsg, if_neg hfne, resolveNext_cons f.1 f.2 hpr]
        rcases hcode with h | h
        · rw [if_neg (by rw [h]; intro hh; cases hh), if_pos h]
          rw [frameOutcome, if_pos h]
        · rw [if_pos h]
          rw [frameOutcome, if_neg (by rw [h]; intro hh; cases hh), if_pos h]
      have hstep : consumeFrames exports s (f :: fs) =
          consumeFrames exports (_onSandboxMsg exports s f.1 f.2) fs := rfl
      rw [hstep, hres]
      set s1 : SandboxState :=
        { s with pendingReads := ids2 ++ rest,
                 outcomes := s.outcomes.set id (frameOutcome f) } with hs1
      have hnd2 : ids2.Nodup := (List.nodup_cons.mp hnd).2
      have hidnot : id ∉ ids2 := (List.nodup_cons.mp hnd).1
      have hidlt : id < s.outcomes.length :=
        hbound id (List.mem_cons_self id ids2)
      have hbound2 : ∀ id2 ∈ ids2, id2 < s1.outcomes.length := by
        intro id2 hm
        show id2 < (s.outcomes.set id (frameOutcome f)).length
        rw [List.length_set]
        exact hbound id2 (List.mem_cons_of_mem id hm)
      have hcodes2 : ∀ g ∈ fs, g.1 = MsgCode.DATA ∨ g.1 = MsgCode.EXC :=
        fun g hg => hcodes g (List.mem_cons_of_mem f hg)
      have hi := ih s1 ids2 rest rfl hlen2 hnd2 hbound2 hcodes2
      have hlen1 : s1.outcomes.length = s.outcomes.length := by
        show (s.outcomes.set id (frameOutcome f)).length = s.outcomes.length
        exact List.length_set _ _ _
      refine ⟨hi.1, by rw [hi.2.1, hlen1], ?_, ?_⟩
      · intro j hj
        have hjne : id ≠ j := fun hh => hj (hh ▸ List.mem_cons_self id ids2)
        have hjnot : j ∉ ids2 := fun hh => hj (List.mem_cons_of_mem id hh)
        rw [hi.2.2.1 j hjnot]
        show (s.outcomes.set id (frameOutcome f))[j]? = s.outcomes[j]?
        exact List.getElem?_set_ne hjne
      · intro i h1 h2
        cases i with
        | zero =>
          rw [List.getElem_cons_zero, List.getElem_cons_zero]
          rw [hi.2.2.1 id hidnot]
          show (s.outcomes.set id (frameOutcome f))[id]? = _
          exact List.getElem?_set_eq_of_lt (frameOutcome f) hidlt
        | succ i2 =>
          rw [List.getElem_cons_succ, List.getElem_cons_succ]
          exact hi.2.2.2 i2 (Nat.lt_of_succ_lt_succ h1)
            (Nat.lt_of_succ_lt_succ h2)

/-! ## Claim theorems -/

/-- Claim C1: FIFO correlation of outgoing calls.  Starting from any state
with no pending call, issue N calls via `pyCall` before any response
arrives: the registry then holds exactly the N fresh call ids in issuance
order.  Then let the inbound bytes decode — under any chunking, i.e. any
partition of the decoded response frames into chunks — to the response
frames (each DATA or EXC, any payloads) consumed in order 1..N: every
pending call is removed oldest-first and the i-th call's slot is resolved
(DATA) or failed (EXC) exactly by the i-th frame, emptying the registry. -/
theorem fifo_correlation (exports : List (String × SandboxMethod))
    (s : SandboxState) (calls : List (String × List Val))
    (chunks : List (List (MsgCode × Val)))
    (hread : s.isReadClosed = false) (hpend : s.pendingReads = [])
    (hlen : chunks.flatten.length = calls.length)
    (hcodes : ∀ f ∈ chunks.flatten,
      f.1 = MsgCode.DATA ∨ f.1 = MsgCode.EXC) :
    (issueCalls s calls).pendingReads =
      List.range' s.outcomes.length calls.length ∧
    (consumeChunks exports (issueCalls s calls) chunks).pendingReads = [] ∧
    (∀ i, (h1 : i < calls.length) → (h2 : i < chunks.flatten.length) →
      (consumeChunks exports (issueCalls s calls)
          chunks).outcomes[s.outcomes.length + i]? =
        some (frameOutcome chunks.flatten[i])) := by
  have hiss := issueCalls_spec calls s hread
  have hpr : (issueCalls s calls).pendingReads =
      List.range' s.outcomes.length calls.length := by
    rw [hiss.1, hpend, List.nil_append]
  have hcr := consumeChunks_eq_flatten exports chunks (issueCalls s calls)
  have hids : (issueCalls s calls).pendingReads =
      List.range' s.outcomes.length calls.length ++ [] := by
    rw [hpr, List.append_nil]
  have hres := consumeFrames_resolves exports chunks.flatten
    (issueCalls s calls) (List.range' s.outcomes.length calls.length) []
    hids
    (by rw [List.length_range', hlen])
    (List.nodup_range' _ _)
    (by
      intro id hm
      rw [hiss.2.1, List.length_append, List.length_replicate]
      exact (List.mem_range'_1.mp hm).2)
    hcodes
  refine ⟨hpr, ?_, ?_⟩
  · rw [hcr]
    exact hres.1
  · intro i h1 h2
    rw [hcr]
    have h1b : i < (List.range' s.outcomes.length calls.length).length := by
      rw [List.length_range']
      exact h1
    have hval := hres.2.2.2 i h1b h2
    rw [List.getElem_range'_1 i h1b] at hval
    exact hval

/-- Witness for C1: the spec's end-to-end scenario — calls `add` then
`boom` are issued, then `DATA 5` and `EXC "ValueError: boom"` arrive in
two separate chunks and resolve the two calls in issuance order. -/
theorem fifo_correlation_witness :
    (issueCalls (initialState false)
        [("add", [.vint 2, .vint 3]), ("boom", [])]).pendingReads =
      List.range' (initialState false).outcomes.length 2 ∧
    (consumeChunks [] (issueCalls (initialState false)
        [("add", [.vint 2, .vint 3]), ("boom", [])])
        [[(.DATA, .vint 5)], [(.EXC, .vstr "ValueError: boom")]]).pendingReads
      = [] ∧
    (∀ i, (h1 : i < ([("add", [Val.vint 2, Val.vint 3]), ("boom", [])] : List (String × List Val)).length) →
      (h2 : i < ([[((MsgCode.DATA : MsgCode), Val.vint 5)], [(MsgCode.EXC, Val.vstr "ValueError: boom")]] : List (List (MsgCode × Val))).flatten.length) →
      (consumeChunks [] (issueCalls (initialState false)
          [("add", [.vint 2, .vint 3]), ("boom", [])])
          [[(.DATA, .vint 5)], [(.EXC, .vstr "ValueError: boom")]]).outcomes[(initialState false).outcomes.length + i]? =
        some (frameOutcome ([[((MsgCode.DATA : MsgCode), Val.vint 5)], [(MsgCode.EXC, Val.vstr "ValueError: boom")]] : List (List (MsgCode × Val))).flatten[i])) :=
  fifo_correlation [] (initialState false)
    [("add", [.vint 2, .vint 3]), ("boom", [])]
    [[(.DATA, .vint 5)], [(.EXC, .vstr "ValueError: boom")]]
    rfl rfl rfl (by decide)

/-- Claim C9: when the inbound channel has already closed, `pyCall` throws a
`SandboxError` synchronously (from `_sendData`, whose closed-check precedes
every mutation) before `_pyCallWait` could enqueue a pending call, so the
state — in particular the pending-call registry — is exactly the one it
started with. -/
theorem pyCall_closed_channel_atomic (s : SandboxState) (funcName : String)
    (varArgs : List Val) (h : s.isReadClosed = true) :
    pyCall s funcName varArgs =
      (s, .error ⟨.vstr "PipeToSandbox is closed"⟩) := by
  simp [pyCall, _sendData, h]

/-- Witness for C9: a concrete closed-channel call fails with the channel
error and leaves the state untouched. -/
theorem pyCall_closed_channel_atomic_witness :
    pyCall { initialState false with isReadClosed := true } "foo" [.vint 1] =
      ({ initialState false with isReadClosed := true },
        .error ⟨.vstr "PipeToSandbox is closed"⟩) :=
  pyCall_closed_channel_atomic _ "foo" [.vint 1] rfl

/-- Claim C4: an inbound CALL frame naming a function absent from the
exported-function table makes the controller emit exactly one EXC response
frame (carrying the stringified `Error("No such exported function: ...")`),
with no synchronous throw, and every other component of the state — in
particular the pending-call registry `pendingReads`/`outcomes` — left
unchanged. -/
theorem unknown_export_call (exports : List (String × SandboxMethod))
    (s : SandboxState) (fname : String) (args : List Val)
    (hread : s.isReadClosed = false)
    (habsent : exports.lookup fname = none) :
    _onSandboxMsg exports s .CALL (.varr (.vstr fname :: args)) =
      { s with sentFrames := s.sentFrames ++
          [(.EXC, .vstr ("Error: No such exported function: " ++ fname))] } := by
  simp [_onSandboxMsg, handleSandboxCall, jsToString, habsent, trySendData,
    _sendData, hread]

/-- Witness for C4: calling the unregistered function "nope" on a fresh
controller yields exactly the one EXC frame. -/
theorem unknown_export_call_witness :
    _onSandboxMsg [] (initialState false) .CALL
        (.varr [.vstr "nope", .vint 7]) =
      { initialState false with sentFrames :=
          [(.EXC, .vstr "Error: No such exported function: nope")] } :=
  unknown_export_call [] (initialState false) "nope" [.vint 7] rfl rfl

/-- Counterexample to C5 as stated: a CALL frame with an empty-array
payload (no function name) is not answered with an EXC frame — the
controller sends nothing at all (it only logs a warning); likewise for a
non-array payload. -/
theorem invalid_call_answered_counterexample :
    (_onSandboxMsg [] (initialState false) .CALL (.varr [])).sentFrames = []
    ∧ (_onSandboxMsg [] (initialState false) .CALL
        (.vstr "notAnArray")).sentFrames = [] := by
  constructor <;> rfl

/-- Claim C5 as amended: a CALL frame whose payload carries no function
name (a non-array payload or an empty array) is logged as a warning and
otherwise ignored — no reply frame is emitted, the pending-call registry is
untouched — and the pump never crashes (the handler is total and returns
normally). -/
theorem invalid_call_logged_and_ignored
    (exports : List (String × SandboxMethod)) (s : SandboxState) (data : Val)
    (hinv : isInvalidCallPayload data = true) :
    _onSandboxMsg exports s .CALL data =
      { s with warnings := s.warnings + 1 } := by
  cases data with
  | varr xs =>
    cases xs with
    | nil => rfl
    | cons x xs => simp [isInvalidCallPayload] at hinv
  | vnull => rfl
  | vbool b => rfl
  | vint n => rfl
  | vstr st => rfl

/-- Witness for amended C5: the empty-array CALL payload on a fresh
controller only increments the warning count. -/
theorem invalid_call_logged_and_ignored_witness :
    _onSandboxMsg [] (initialState false) .CALL (.varr []) =
      { initialState false with warnings := 1 } :=
  invalid_call_logged_and_ignored [] (initialState false) (.varr []) rfl

/-- Claim C2: consuming a non-CALL frame `(code, payload)` removes the
oldest pending call, if any, and resolves its slot — success with the
payload for DATA, failure carrying the payload as the error description
for EXC; any other code only logs a warning (no slot is resolved).  With
no call pending the operation returns the state unchanged and, being a
total function, never throws. -/
theorem response_frame_dispatch (exports : List (String × SandboxMethod))
    (s : SandboxState) (code : MsgCode) (payload : Val)
    (hcode : code ≠ .CALL) :
    (s.pendingReads = [] → _onSandboxMsg exports s code payload = s) ∧
    (∀ id rest, s.pendingReads = id :: rest →
      (code = .DATA →
        _onSandboxMsg exports s code payload =
          { s with pendingReads := rest,
                   outcomes := s.outcomes.set id (.success payload) }) ∧
      (code = .EXC →
        _onSandboxMsg exports s code payload =
          { s with pendingReads := rest,
                   outcomes := s.outcomes.set id (.failure ⟨payload⟩) }) ∧
      (code = .other →
        _onSandboxMsg exports s code payload =
          { s with pendingReads := rest, warnings := s.warnings + 1 })) := by
  constructor
  · intro hnil
    rw [_onSandboxMsg, if_neg hcode, resolveNext_nil code payload hnil]
  · intro id rest hcons
    refine ⟨fun hd => ?_, fun he => ?_, fun ho => ?_⟩ <;>
      rw [_onSandboxMsg, if_neg hcode, resolveNext_cons code payload hcons] <;>
      subst code <;> rfl

/-- Witness for C2: a DATA frame on a controller with one pending call
resolves that call with the payload and empties the queue. -/
theorem response_frame_dispatch_witness :
    _onSandboxMsg []
        { initialState false with pendingReads := [0], outcomes := [.pending] }
        .DATA (.vint 5) =
      { initialState false with
          pendingReads := []
          outcomes := [.success (.vint 5)] } := by
  have h := (response_frame_dispatch []
    { initialState false with pendingReads := [0], outcomes := [.pending] }
    .DATA (.vint 5) (by decide)).2 0 [] rfl
  exact (h.1 rfl).trans rfl

/-- Claim C6: `shutdown()` on a running controller closes the outbound
stream (via `_close`) and arms a 1000 ms kill timer; if the timer fires
while the process has not exited, SIGKILL is sent unconditionally, and the
subsequent process exit still completes the shutdown (the wait is bounded
by the forced kill, not infinite); conversely a process exit resolves the
awaited promise, which cancels a still-pending kill timer. -/
theorem shutdown_forced_kill (s : SandboxState)
    (h : s.isWriteClosed = false) :
    (shutdownStart s).timerDelayMs = 1000 ∧
    (shutdownStart s).core.isWriteClosed = true ∧
    (shutdownStart s).core.streamEndCount = s.streamEndCount + 1 ∧
    (shutdownStart s).timerPending = true ∧
    (shutdownStart s).processExited = false ∧
    (shutdownStep (shutdownStart s) .timerFire).killSent = true ∧
    (shutdownStep (shutdownStep (shutdownStart s) .timerFire)
        .processExit).completed = true ∧
    (shutdownStep (shutdownStart s) .processExit).timerPending = false ∧
    (shutdownStep (shutdownStart s) .processExit).completed = true := by
  have hcore : (shutdownStart s).timerPending = true := by
    simp [shutdownStart, h]
  refine ⟨rfl, ?_, ?_, hcore, rfl, ?_, ?_, ?_, ?_⟩
  · show (_close s).isWriteClosed = true
    unfold _close
    dsimp only
    rw [if_neg (by rw [stopThrottle_isWriteClosed, h]; exact Bool.false_ne_true)]
  · show (_close s).streamEndCount = s.streamEndCount + 1
    unfold _close
    dsimp only
    rw [if_neg (by rw [stopThrottle_isWriteClosed, h]; exact Bool.false_ne_true)]
    show (stopThrottle s).streamEndCount + 1 = s.streamEndCount + 1
    rw [stopThrottle_streamEndCount]
  · rw [shutdownStep, if_pos hcore]
  · rw [shutdownStep, if_pos hcore]
    rfl
  · rw [shutdownStep, if_neg (by rw [shutdownStart]; exact Bool.false_ne_true)]
  · rw [shutdownStep, if_neg (by rw [shutdownStart]; exact Bool.false_ne_true)]

/-- Witness for C6: shutting down a fresh controller. -/
theorem shutdown_forced_kill_witness :
    (shutdownStart (initialState false)).timerDelayMs = 1000 ∧
    (shutdownStart (initialState false)).core.isWriteClosed = true ∧
    (shutdownStart (initialState false)).core.streamEndCount = 0 + 1 ∧
    (shutdownStart (initialState false)).timerPending = true ∧
    (shutdownStart (initialState false)).processExited = false ∧
    (shutdownStep (shutdownStart (initialState false)) .timerFire).killSent
      = true ∧
    (shutdownStep (shutdownStep (shutdownStart (initialState false))
        .timerFire) .processExit).completed = true ∧
    (shutdownStep (shutdownStart (initialState false))
        .processExit).timerPending = false ∧
    (shutdownStep (shutdownStart (initialState false))
        .processExit).completed = true :=
  shutdown_forced_kill (initialState false) rfl

/-- Claim C7: a second `shutdown()` after (or concurrently with) a first
one does not end the outbound stream again (the total `.end()` count over
both is one), resolves immediately so its caller observes completion with
its kill timer already cancelled, the first caller still observes
completion when the process exits, and that exit is handled exactly once
(a duplicate exit event is a no-op, so completion cannot double-fire). -/
theorem shutdown_idempotent (s : SandboxState)
    (h : s.isWriteClosed = false) :
    (shutdownStart (shutdownStart s).core).core.streamEndCount =
      s.streamEndCount + 1 ∧
    (shutdownStart (shutdownStart s).core).completed = true ∧
    (shutdownStart (shutdownStart s).core).timerPending = false ∧
    (shutdownStep (shutdownStart s) .processExit).completed = true ∧
    shutdownStep (shutdownStep (shutdownStart s) .processExit) .processExit =
      shutdownStep (shutdownStart s) .processExit := by
  have hclosed : (shutdownStart s).core.isWriteClosed = true := by
    show (_close s).isWriteClosed = true
    unfold _close
    dsimp only
    rw [if_neg (by rw [stopThrottle_isWriteClosed, h]; exact Bool.false_ne_true)]
  have hcount : (shutdownStart s).core.streamEndCount = s.streamEndCount + 1 := by
    show (_close s).streamEndCount = s.streamEndCount + 1
    unfold _close
    dsimp only
    rw [if_neg (by rw [stopThrottle_isWriteClosed, h]; exact Bool.false_ne_true)]
    show (stopThrottle s).streamEndCount + 1 = s.streamEndCount + 1
    rw [stopThrottle_streamEndCount]
  refine ⟨?_, ?_, ?_, ?_, ?_⟩
  · show (_close (shutdownStart s).core).streamEndCount = s.streamEndCount + 1
    unfold _close
    dsimp only
    rw [if_pos (by rw [stopThrottle_isWriteClosed]; exact hclosed),
      stopThrottle_streamEndCount, hcount]
  · show (shutdownStart s).core.isWriteClosed = true
    exact hclosed
  · have hp : (shutdownStart (shutdownStart s).core).timerPending
        = !(shutdownStart s).core.isWriteClosed := rfl
    rw [hp, hclosed]
    rfl
  · rw [shutdownStep, if_neg (by rw [shutdownStart]; exact Bool.false_ne_true)]
  · rw [shutdownStep]
    have hex : (shutdownStep (shutdownStart s) .processExit).processExited
        = true := by
      rw [shutdownStep,
        if_neg (by rw [shutdownStart]; exact Bool.false_ne_true)]
    rw [if_pos hex]

/-- Claim C8: on process termination the throttle hook, if attached, is
stopped, and every still-outstanding pending call is failed with the
closed-channel error.  Node closes the child's stdio streams around the
process 'close' event, so termination delivers both the inbound-stream
'end' event (`_onSandboxClose`, which drains) and the 'close' event
(`_onExit`); the conclusion holds for either delivery order — the drain
comes from the inbound-close handler whenever it has not already run. -/
theorem exit_cleanup (s : SandboxState)
    (hids : ∀ id ∈ s.pendingReads, id < s.outcomes.length) :
    (s.throttleAttached = true →
      (_onExit (_onSandboxClose s)).throttleStopped = true ∧
      (_onSandboxClose (_onExit s)).throttleStopped = true) ∧
    (_onExit (_onSandboxClose s)).pendingReads = [] ∧
    (_onSandboxClose (_onExit s)).pendingReads = [] ∧
    (∀ id ∈ s.pendingReads,
      (_onExit (_onSandboxClose s)).outcomes[id]? =
        some (.failure channelClosedError) ∧
      (_onSandboxClose (_onExit s)).outcomes[id]? =
        some (.failure channelClosedError)) := by
  refine ⟨fun hatt => ⟨?_, ?_⟩, ?_, ?_, fun id hmem => ⟨?_, ?_⟩⟩
  · exact close_throttleStopped_of_attached _
      (by rw [onSandboxClose_throttleAttached]; exact hatt)
  · exact onSandboxClose_throttleStopped_of_attached _
      (by rw [_onExit, close_throttleAttached]; exact hatt)
  · rw [_onExit, close_pendingReads, onSandboxClose_pendingReads]
  · rw [onSandboxClose_pendingReads]
  · rw [_onExit, close_outcomes, onSandboxClose_outcomes]
    exact drainOutcomes_get_of_mem s.pendingReads s.outcomes
      channelClosedError id hmem (hids id hmem)
  · rw [onSandboxClose_outcomes, _onExit, close_outcomes, close_pendingReads]
    exact drainOutcomes_get_of_mem s.pendingReads s.outcomes
      channelClosedError id hmem (hids id hmem)

/-- Witness for C8: a controller with an attached throttle and one
outstanding call, terminated. -/
theorem exit_cleanup_witness :
    (((initialState true).throttleAttached = true →
      (_onExit (_onSandboxClose { initialState true with pendingReads := [0], outcomes := [.pending] })).throttleStopped = true ∧
      (_onSandboxClose (_onExit { initialState true with pendingReads := [0], outcomes := [.pending] })).throttleStopped = true)) ∧
    (_onExit (_onSandboxClose { initialState true with pendingReads := [0], outcomes := [.pending] })).pendingReads = [] ∧
    (_onSandboxClose (_onExit { initialState true with pendingReads := [0], outcomes := [.pending] })).pendingReads = [] ∧
    (∀ id ∈ ({ initialState true with pendingReads := [0], outcomes := [.pending] } : SandboxState).pendingReads,
      (_onExit (_onSandboxClose { initialState true with pendingReads := [0], outcomes := [.pending] })).outcomes[id]? =
        some (.failure channelClosedError) ∧
      (_onSandboxClose (_onExit { initialState true with pendingReads := [0], outcomes := [.pending] })).outcomes[id]? =
        some (.failure channelClosedError)) :=
  exit_cleanup { initialState true with pendingReads := [0], outcomes := [.pending] }
    (by decide)

/-- Claim C3: `_onSandboxClose` (inbound stream ended or errored) empties
the pending-call registry, failing every outstanding completion slot with
the channel-closed error, and marks the read side closed; from then on —
after any further sequence of observed events — `pyCall` fails immediately
with a synchronous `SandboxError` and leaves the state unchanged, so no
later call ever hangs or resolves successfully. -/
theorem closed_channel_draining (exports : List (String × SandboxMethod))
    (s : SandboxState)
    (hids : ∀ id ∈ s.pendingReads, id < s.outcomes.length) :
    (_onSandboxClose s).pendingReads = [] ∧
    (_onSandboxClose s).isReadClosed = true ∧
    (∀ id ∈ s.pendingReads,
      (_onSandboxClose s).outcomes[id]? =
        some (.failure channelClosedError)) ∧
    (∀ evs funcName varArgs,
      pyCall (applyEvents exports (_onSandboxClose s) evs) funcName varArgs =
        (applyEvents exports (_onSandboxClose s) evs,
          .error ⟨.vstr "PipeToSandbox is closed"⟩)) := by
  refine ⟨onSandboxClose_pendingReads s, rfl, fun id hmem => ?_,
    fun evs funcName varArgs => ?_⟩
  · rw [onSandboxClose_outcomes]
    exact drainOutcomes_get_of_mem s.pendingReads s.outcomes
      channelClosedError id hmem (hids id hmem)
  · have hr : (applyEvents exports (_onSandboxClose s) evs).isReadClosed
        = true :=
      applyEvents_isReadClosed exports evs (_onSandboxClose s) rfl
    simp [pyCall, _sendData, hr]

/-- Witness for C3: a controller with two outstanding calls whose inbound
stream closes. -/
theorem closed_channel_draining_witness :
    (_onSandboxClose { initialState false with pendingReads := [0, 1], outcomes := [.pending, .pending] }).pendingReads = [] ∧
    (_onSandboxClose { initialState false with pendingReads := [0, 1], outcomes := [.pending, .pending] }).isReadClosed = true ∧
    (∀ id ∈ ({ initialState false with pendingReads := [0, 1], outcomes := [.pending, .pending] } : SandboxState).pendingReads,
      (_onSandboxClose { initialState false with pendingReads := [0, 1], outcomes := [.pending, .pending] }).outcomes[id]? =
        some (.failure channelClosedError)) ∧
    (∀ evs funcName varArgs,
      pyCall (applyEvents [] (_onSandboxClose { initialState false with pendingReads := [0, 1], outcomes := [.pending, .pending] }) evs) funcName varArgs =
        (applyEvents [] (_onSandboxClose { initialState false with pendingReads := [0, 1], outcomes := [.pending, .pending] }) evs,
          .error ⟨.vstr "PipeToSandbox is closed"⟩)) :=
  closed_channel_draining []
    { initialState false with pendingReads := [0, 1], outcomes := [.pending, .pending] }
    (by decide)

/-- Witness for C7: two consecutive shutdowns of a fresh controller. -/
theorem shutdown_idempotent_witness :
    (shutdownStart (shutdownStart (initialState false)).core).core.streamEndCount = 0 + 1 ∧
    (shutdownStart (shutdownStart (initialState false)).core).completed = true ∧
    (shutdownStart (shutdownStart (initialState false)).core).timerPending = false ∧
    (shutdownStep (shutdownStart (initialState false)) .processExit).completed = true ∧
    shutdownStep (shutdownStep (shutdownStart (initialState false)) .processExit) .processExit =
      shutdownStep (shutdownStart (initialState false)) .processExit :=
  shutdown_idempotent (initialState false) rfl

/-- Claim C10: the DOC_URL value passed to the spawned process is
`options.docUrl` (empty string when absent) with only the first character
outside `[-a-zA-Z0-9_:/?&.]` removed — the regex has no global flag, so any
later disallowed characters are kept verbatim: for a prefix of allowed
characters `a`, a disallowed character `c` and an arbitrary remainder `b`,
the result is `a ++ b` with `b` untouched. -/
theorem docUrl_single_replace (a b : List Char) (c : Char)
    (ha : ∀ x ∈ a, docUrlAllowed x = true)
    (hc : docUrlAllowed c = false) :
    createDocUrlEnv none = "" ∧
    createDocUrlEnv (some (String.mk (a ++ c :: b))) = String.mk (a ++ b) := by
  refine ⟨rfl, ?_⟩
  show String.mk (replaceFirstDisallowed (a ++ c :: b)) = String.mk (a ++ b)
  congr 1
  induction a with
  | nil =>
    show replaceFirstDisallowed (c :: b) = b
    rw [replaceFirstDisallowed, if_neg (by rw [hc]; exact Bool.false_ne_true)]
  | cons x xs ih =>
    have hx : docUrlAllowed x = true := ha x (List.mem_cons_self x xs)
    show replaceFirstDisallowed (x :: (xs ++ c :: b)) = x :: (xs ++ b)
    rw [replaceFirstDisallowed, if_pos hx,
      ih (fun y hy => ha y (List.mem_cons_of_mem x hy))]

/-- Witness for C10: "ab$cd$e" loses only the first '$'; the second '$'
survives. -/
theorem docUrl_single_replace_witness :
    createDocUrlEnv none = "" ∧
    createDocUrlEnv (some (String.mk (['a', 'b'] ++ '$' :: ['c', 'd', '$', 'e']))) =
      String.mk (['a', 'b'] ++ ['c', 'd', '$', 'e']) :=
  docUrl_single_replace ['a', 'b'] ['c', 'd', '$', 'e'] '$' (by decide) (by decide)

end NSandbox
